import Mathlib

/-!
Verification of the measurement-controller core of the ecc-vs-dilithium
benchmarking application (`controller.py` and `interfaces.py`).

The Python code is shallowly embedded as executable Lean functions.
External effects are supplied by explicit oracles:

* cryptographic library calls (`ecdsa`, `liboqs`) are fields of `ECCLib`
  and `DilithiumLib`, each returning `Except PyExn _` since any library
  call may raise;
* `os.urandom`, `time.perf_counter`, `psutil` memory samples and the
  timestamp are fields of `Env`; `os.urandom(n)` raises `ValueError`
  for negative `n` (CPython behaviour) and otherwise returns the
  oracle's bytes;
* Python `float` arithmetic is modelled on exact rationals, with
  `round(x, n)` modelled as round-half-to-even on the scaled rational.

`run_test` returns `Except PyExn (CryptoResult × TestController × List Event)`:
an `Except.error` models an exception propagating to the caller, the
`TestController` component is the mutated controller state, and the
`List Event` component is an instrumentation trace recording memory
samples, timer start/stop, and the algorithm calls made in between, in
program order.
-/

namespace CryptoBench

/-- Python `bytes` values, as lists of byte-sized naturals. -/
abbrev ByteStr := List Nat

/-- Python exceptions that the embedded code can raise or observe. -/
inductive PyExn where
  | valueError (msg : String)
  | otherError (msg : String)
deriving DecidableEq

/-- Python `str(e)` on an exception: the message text. -/
def PyExn.str : PyExn → String
  | .valueError m => m
  | .otherError m => m

/-- The `CryptoResult` dataclass from `interfaces.py`.  Float fields are
modelled as rationals, `error_message: Optional[str]` as `Option String`. -/
structure CryptoResult where
  timestamp : String
  algorithm : String
  operation : String
  message_size : Int
  execution_time_ms : ℚ
  memory_usage_kb : ℚ
  status : String
  error_message : Option String
deriving DecidableEq

/-- Round-half-to-even on rationals (the tie-breaking rule of Python's
built-in `round`). -/
def roundHalfEven (q : ℚ) : ℤ :=
  let f := ⌊q⌋
  let r := q - f
  if r < 1/2 then f
  else if 1/2 < r then f + 1
  else if f % 2 = 0 then f else f + 1

/-- Python `round(q, n)` on exact rationals. -/
def pyRound (q : ℚ) (n : ℕ) : ℚ :=
  (roundHalfEven (q * 10 ^ n) : ℚ) / 10 ^ n

/-- Behaviour oracle for the `ecdsa` library calls made by
`ECCImplementation`.  Argument orders follow the call sites:
`signRaw sk message` for `private_key.sign(message)` and
`verifyRaw pk signature message` for `public_key.verify(signature, message)`. -/
structure ECCLib where
  generateSigningKey : Except PyExn ByteStr
  getVerifyingKey : ByteStr → Except PyExn ByteStr
  signRaw : ByteStr → ByteStr → Except PyExn ByteStr
  verifyRaw : ByteStr → ByteStr → ByteStr → Except PyExn Bool

/-- Behaviour oracle for the `oqs.Signature` calls made by
`DILITHIUMImplementation`.  `genKeypair` returns `(public_key, private_key)`
as `sig.generate_keypair` does at its call site; `signRaw message sk` models
`sig.sign(message, private_key)`; `verifyRaw message signature pk` models
`sig.verify(message, signature, public_key)`. -/
structure DilithiumLib where
  genKeypair : Except PyExn (ByteStr × ByteStr)
  signRaw : ByteStr → ByteStr → Except PyExn ByteStr
  verifyRaw : ByteStr → ByteStr → ByteStr → Except PyExn Bool

/-- State of an `ECCImplementation` instance: the two optional key fields. -/
structure ECCImplementation where
  private_key : Option ByteStr
  public_key : Option ByteStr
deriving DecidableEq

/-- State of a `DILITHIUMImplementation` instance.  Keys are raw `bytes`. -/
structure DILITHIUMImplementation where
  private_key : Option ByteStr
  public_key : Option ByteStr
deriving DecidableEq

/-- The `InvalidState` message raised by both `sign` and `verify` guards. -/
def keysNotGeneratedMsg : String :=
  "Keys not generated. Call generate_keys() first."

/-- `ECCImplementation.generate_keys`: two library calls with in-place field
assignment between them, so a failure of the second call leaves the fresh
private key assigned but the stale public key in place.  Returns the new
instance state together with the Python return value or exception. -/
def ECCImplementation.generate_keys (lib : ECCLib) (i : ECCImplementation) :
    ECCImplementation × Except PyExn (ByteStr × ByteStr) :=
  match lib.generateSigningKey with
  | .error e => (i, .error e)
  | .ok sk =>
    match lib.getVerifyingKey sk with
    | .error e => ({ i with private_key := some sk }, .error e)
    | .ok pk => ({ private_key := some sk, public_key := some pk }, .ok (sk, pk))

/-- `ECCImplementation.sign`: `if not self.private_key` is `None`-ness for a
key object; then `private_key.sign(message)`. -/
def ECCImplementation.sign (lib : ECCLib) (i : ECCImplementation)
    (message : ByteStr) : Except PyExn ByteStr :=
  match i.private_key with
  | none => .error (.valueError keysNotGeneratedMsg)
  | some sk => lib.signRaw sk message

/-- `ECCImplementation.verify`: guard on `public_key`, then
`public_key.verify(signature, message)` inside `try`, returning `True` on
a completed call and `False` on any exception. -/
def ECCImplementation.verify (lib : ECCLib) (i : ECCImplementation)
    (message signature : ByteStr) : Except PyExn Bool :=
  match i.public_key with
  | none => .error (.valueError keysNotGeneratedMsg)
  | some pk =>
    match lib.verifyRaw pk signature message with
    | .ok _ => .ok true
    | .error _ => .ok false

/-- `DILITHIUMImplementation.generate_keys`: one keypair call, then both
fields assigned; returns `(private_key, public_key)`. -/
def DILITHIUMImplementation.generate_keys (lib : DilithiumLib)
    (i : DILITHIUMImplementation) :
    DILITHIUMImplementation × Except PyExn (ByteStr × ByteStr) :=
  match lib.genKeypair with
  | .error e => (i, .error e)
  | .ok (pub, priv) =>
    ({ private_key := some priv, public_key := some pub }, .ok (priv, pub))

/-- `DILITHIUMImplementation.sign`: `if not self.private_key` on a `bytes`
field is falsy for `None` and for empty bytes; then
`sig.sign(message, private_key)`. -/
def DILITHIUMImplementation.sign (lib : DilithiumLib)
    (i : DILITHIUMImplementation) (message : ByteStr) : Except PyExn ByteStr :=
  match i.private_key with
  | none => .error (.valueError keysNotGeneratedMsg)
  | some sk =>
    if sk.isEmpty then .error (.valueError keysNotGeneratedMsg)
    else lib.signRaw message sk

/-- `DILITHIUMImplementation.verify`: guard on `public_key`, then
`sig.verify(message, signature, public_key)` inside `try`, returning the
library's boolean, or `False` on any exception. -/
def DILITHIUMImplementation.verify (lib : DilithiumLib)
    (i : DILITHIUMImplementation) (message signature : ByteStr) :
    Except PyExn Bool :=
  match i.public_key with
  | none => .error (.valueError keysNotGeneratedMsg)
  | some pk =>
    if pk.isEmpty then .error (.valueError keysNotGeneratedMsg)
    else
      match lib.verifyRaw message signature pk with
      | .ok b => .ok b
      | .error _ => .ok false

/-- A registered algorithm instance in the controller's `algorithms` dict:
duck-typed dispatch over the two implementation classes. -/
inductive AlgoInstance where
  | ecc (impl : ECCImplementation)
  | dilithium (impl : DILITHIUMImplementation)
deriving DecidableEq

/-- The pair of library oracles available to the controller. -/
structure Libs where
  ecc : ECCLib
  dil : DilithiumLib

/-- The controller's `if not algo.private_key` check: `None`-ness for the
ECC key object, falsiness (`None` or empty bytes) for Dilithium key bytes. -/
def AlgoInstance.noPrivKey : AlgoInstance → Bool
  | .ecc i => i.private_key.isNone
  | .dilithium i =>
    match i.private_key with
    | none => true
    | some sk => sk.isEmpty

/-- `algo.generate_keys()` as called by the controller: new instance state
plus the exception, if one was raised. -/
def AlgoInstance.generate_keys (libs : Libs) :
    AlgoInstance → AlgoInstance × Option PyExn
  | .ecc i =>
    match ECCImplementation.generate_keys libs.ecc i with
    | (i2, .error e) => (.ecc i2, some e)
    | (i2, .ok _) => (.ecc i2, none)
  | .dilithium i =>
    match DILITHIUMImplementation.generate_keys libs.dil i with
    | (i2, .error e) => (.dilithium i2, some e)
    | (i2, .ok _) => (.dilithium i2, none)

/-- `algo.sign(message)` as called by the controller. -/
def AlgoInstance.sign (libs : Libs) : AlgoInstance → ByteStr → Except PyExn ByteStr
  | .ecc i, m => ECCImplementation.sign libs.ecc i m
  | .dilithium i, m => DILITHIUMImplementation.sign libs.dil i m

/-- `algo.verify(message, signature)` as called by the controller. -/
def AlgoInstance.verify (libs : Libs) :
    AlgoInstance → ByteStr → ByteStr → Except PyExn Bool
  | .ecc i, m, s => ECCImplementation.verify libs.ecc i m s
  | .dilithium i, m, s => DILITHIUMImplementation.verify libs.dil i m s

/-- Instrumentation events recording, in program order, the memory samples,
the timer endpoints, and the algorithm calls `run_test` performs.
`verifyCall b` records a `verify` call that completed with boolean `b`. -/
inductive Event where
  | memSampleBefore
  | timerStart
  | keygenCall
  | signCall
  | verifyCall (is_valid : Bool)
  | timerStop
  | memSampleAfter
deriving DecidableEq

/-- The environment of one `run_test` call: library behaviour, the bytes
`os.urandom` would produce, the two memory samples (`rss / 1024`, in KB),
the two `perf_counter` readings (in seconds), and the timestamp text. -/
structure Env where
  libs : Libs
  randomBytes : Int → ByteStr
  memBefore : ℚ
  memAfter : ℚ
  startTime : ℚ
  endTime : ℚ
  timestamp : String

/-- `os.urandom(n)`: raises `ValueError` for negative `n` (CPython), else
returns the environment's random bytes. -/
def os_urandom (env : Env) (n : Int) : Except PyExn ByteStr :=
  if n < 0 then .error (.valueError "negative argument not allowed")
  else .ok (env.randomBytes n)

/-- The `TestController` state: the module-level availability flags and the
`algorithms` dict as an association list. -/
structure TestController where
  eccAvailable : Bool
  dilithiumAvailable : Bool
  algorithms : List (String × AlgoInstance)
deriving DecidableEq

/-- In-place mutation of the instance object stored under `name`: the dict
keeps its keys and every other entry. -/
def TestController.setAlgo (c : TestController) (name : String)
    (inst : AlgoInstance) : TestController :=
  { c with
    algorithms := c.algorithms.map fun p => if p.1 = name then (p.1, inst) else p }

/-- Python `repr` of a string, as used inside an f-string for a list. -/
def pyStrRepr (s : String) : String := "\x27" ++ s ++ "\x27"

/-- Python `repr` of a list of strings (`f"{available}"`). -/
def pyListRepr (xs : List String) : String :=
  "[" ++ String.intercalate ", " (xs.map pyStrRepr) ++ "]"

/-- The unregistered-algorithm error message built at the top of `run_test`,
including the conditional installation hints. -/
def unavailableMsg (c : TestController) (algorithm : String) : String :=
  let available := c.algorithms.map Prod.fst
  let base := "Algorithm \x27" ++ algorithm ++ "\x27 not available. Available: "
    ++ pyListRepr available
  if algorithm = "ecc" && !c.eccAvailable then
    base ++ ". Install: pip install ecdsa"
  else if algorithm = "dilithium" && !c.dilithiumAvailable then
    base ++ ". Install liboqs C library and liboqs-python"
  else base

/-- The `operation` dispatch of `run_test` (the body of its `try` block up
to the timing code): returns the instance state after the mutations that
happened, the algorithm-call events in order, and the exception raised
during dispatch, if any. -/
def dispatchOp (libs : Libs) (inst : AlgoInstance) (operation : String)
    (msg : ByteStr) : AlgoInstance × List Event × Option PyExn :=
  if operation = "keygen" then
    let r := inst.generate_keys libs
    (r.1, [Event.keygenCall], r.2)
  else if operation = "sign" then
    if inst.noPrivKey then
      let r := inst.generate_keys libs
      match r.2 with
      | some e => (r.1, [Event.keygenCall], some e)
      | none =>
        match r.1.sign libs msg with
        | .error e => (r.1, [Event.keygenCall, Event.signCall], some e)
        | .ok _ => (r.1, [Event.keygenCall, Event.signCall], none)
    else
      match inst.sign libs msg with
      | .error e => (inst, [Event.signCall], some e)
      | .ok _ => (inst, [Event.signCall], none)
  else if operation = "verify" then
    let step :=
      if inst.noPrivKey then
        let r := inst.generate_keys libs
        (r.1, [Event.keygenCall], r.2)
      else (inst, ([] : List Event), (none : Option PyExn))
    match step.2.2 with
    | some e => (step.1, step.2.1, some e)
    | none =>
      match step.1.sign libs msg with
      | .error e => (step.1, step.2.1 ++ [Event.signCall], some e)
      | .ok signature =>
        match step.1.verify libs msg signature with
        | .error e => (step.1, step.2.1 ++ [Event.signCall], some e)
        | .ok is_valid =>
          if is_valid then
            (step.1, step.2.1 ++ [Event.signCall, Event.verifyCall true], none)
          else
            (step.1, step.2.1 ++ [Event.signCall, Event.verifyCall false],
             some (.valueError "Signature verification failed"))
  else
    (inst, [], some (.valueError ("Unknown operation: " ++ operation)))

/-- `TestController.run_test`.  The unregistered-algorithm check returns
before any sampling; `os.urandom` and the first memory sample sit before
the `try` block, so an exception there propagates (`Except.error`); every
exception raised inside the dispatch is caught and converted to a
`failure` result with zeroed measurement fields. -/
def TestController.run_test (c : TestController) (env : Env)
    (algorithm operation : String) (message_size : Int) :
    Except PyExn (CryptoResult × TestController × List Event) :=
  match c.algorithms.lookup algorithm with
  | none =>
    .ok
      ({ timestamp := env.timestamp, algorithm := algorithm,
         operation := operation, message_size := message_size,
         execution_time_ms := 0, memory_usage_kb := 0, status := "failure",
         error_message := some (unavailableMsg c algorithm) }, c, [])
  | some algo =>
    match os_urandom env message_size with
    | .error e => .error e
    | .ok test_message =>
      let memory_before := env.memBefore
      let start_time := env.startTime
      let d := dispatchOp env.libs algo operation test_message
      let c2 := c.setAlgo algorithm d.1
      match d.2.2 with
      | some e =>
        .ok
          ({ timestamp := env.timestamp, algorithm := algorithm,
             operation := operation, message_size := message_size,
             execution_time_ms := 0, memory_usage_kb := 0,
             status := "failure", error_message := some e.str },
           c2, [Event.memSampleBefore, Event.timerStart] ++ d.2.1)
      | none =>
        let end_time := env.endTime
        let memory_after := env.memAfter
        let execution_time_ms := (end_time - start_time) * 1000
        let memory_usage_kb := max 0 (memory_after - memory_before)
        .ok
          ({ timestamp := env.timestamp, algorithm := algorithm,
             operation := operation, message_size := message_size,
             execution_time_ms := pyRound execution_time_ms 4,
             memory_usage_kb := pyRound memory_usage_kb 3,
             status := "success", error_message := none },
           c2, [Event.memSampleBefore, Event.timerStart] ++ d.2.1
                ++ [Event.timerStop, Event.memSampleAfter])

/-- A benign ECC library oracle for concrete runs. -/
def sampleECCLib : ECCLib where
  generateSigningKey := .ok [1]
  getVerifyingKey := fun _ => .ok [2]
  signRaw := fun _ _ => .ok [3]
  verifyRaw := fun _ _ _ => .ok true

/-- A benign Dilithium library oracle for concrete runs. -/
def sampleDilLib : DilithiumLib where
  genKeypair := .ok ([4], [5])
  signRaw := fun _ _ => .ok [6]
  verifyRaw := fun _ _ _ => .ok true

/-- A concrete environment for witnesses and counterexamples. -/
def sampleEnv : Env where
  libs := { ecc := sampleECCLib, dil := sampleDilLib }
  randomBytes := fun _ => []
  memBefore := 0
  memAfter := 0
  startTime := 0
  endTime := 0
  timestamp := "t"

/-- A concrete controller with a fresh ECC instance registered. -/
def sampleController : TestController where
  eccAvailable := true
  dilithiumAvailable := true
  algorithms := [("ecc", .ecc { private_key := none, public_key := none })]

/-- An ECC library oracle whose raw verification always raises, driving the
controller's `verify` path into the `is_valid == False` branch. -/
def badVerifyECCLib : ECCLib where
  generateSigningKey := .ok [1]
  getVerifyingKey := fun _ => .ok [2]
  signRaw := fun _ _ => .ok [3]
  verifyRaw := fun _ _ _ => .error (.otherError "BadSignatureError")

/-- Environment variant whose ECC library rejects every signature. -/
def badVerifyEnv : Env :=
  { sampleEnv with libs := { ecc := badVerifyECCLib, dil := sampleDilLib } }

/-- A freshly constructed ECC instance: no key pair. -/
def freshECC : ECCImplementation := { private_key := none, public_key := none }

/-- A freshly constructed Dilithium instance: no key pair. -/
def freshDil : DILITHIUMImplementation :=
  { private_key := none, public_key := none }

/-- An ECC instance holding a key pair. -/
def keyedECC : ECCImplementation :=
  { private_key := some [1], public_key := some [2] }

/-- A Dilithium instance holding a key pair. -/
def keyedDil : DILITHIUMImplementation :=
  { private_key := some [5], public_key := some [4] }

/-- Result of `run_test sampleEnv "ecc" "keygen" 5`. -/
def keygenRunRes : CryptoResult :=
  { timestamp := "t", algorithm := "ecc", operation := "keygen",
    message_size := 5, execution_time_ms := 0, memory_usage_kb := 0,
    status := "success", error_message := none }

/-- Controller state after a successful ECC key generation run. -/
def keygenRunCtl : TestController :=
  { eccAvailable := true, dilithiumAvailable := true,
    algorithms := [("ecc", .ecc { private_key := some [1],
                                  public_key := some [2] })] }

/-- Event trace of `run_test sampleEnv "ecc" "keygen" 5`. -/
def keygenRunTr : List Event :=
  [Event.memSampleBefore, Event.timerStart, Event.keygenCall,
   Event.timerStop, Event.memSampleAfter]

/-- Result of `run_test sampleEnv "ecc" "sign" 5` from a fresh instance. -/
def signRunRes : CryptoResult :=
  { timestamp := "t", algorithm := "ecc", operation := "sign",
    message_size := 5, execution_time_ms := 0, memory_usage_kb := 0,
    status := "success", error_message := none }

/-- Event trace of `run_test sampleEnv "ecc" "sign" 5` from a fresh
instance: on-demand key generation happens right after the timer starts. -/
def signRunTr : List Event :=
  [Event.memSampleBefore, Event.timerStart, Event.keygenCall,
   Event.signCall, Event.timerStop, Event.memSampleAfter]

/-- Result of `run_test badVerifyEnv "ecc" "verify" 5`: the library rejects
the fresh signature, so the dispatch raises the verification-mismatch
`ValueError`. -/
def mismatchRunRes : CryptoResult :=
  { timestamp := "t", algorithm := "ecc", operation := "verify",
    message_size := 5, execution_time_ms := 0, memory_usage_kb := 0,
    status := "failure",
    error_message := some "Signature verification failed" }

/-- Event trace of `run_test badVerifyEnv "ecc" "verify" 5`: no timer-stop
event, since the dispatch raised. -/
def mismatchRunTr : List Event :=
  [Event.memSampleBefore, Event.timerStart, Event.keygenCall,
   Event.signCall, Event.verifyCall false]

theorem roundHalfEven_nonneg (q : ℚ) (h : 0 ≤ q) : 0 ≤ roundHalfEven q := by
  unfold roundHalfEven
  have hf : 0 ≤ ⌊q⌋ := Int.floor_nonneg.mpr h
  dsimp only
  split_ifs <;> omega

theorem pyRound_nonneg (q : ℚ) (n : ℕ) (h : 0 ≤ q) : 0 ≤ pyRound q n := by
  unfold pyRound
  apply div_nonneg
  · exact_mod_cast roundHalfEven_nonneg _ (mul_nonneg h (by positivity))
  · positivity

theorem lookup_map_set (l : List (String × AlgoInstance)) (a : String)
    (v w : AlgoInstance) (h : l.lookup a = some w) :
    (l.map fun p => if p.1 = a then (p.1, v) else p).lookup a = some v := by
  induction l with
  | nil => simp [List.lookup] at h
  | cons hd tl ih =>
    rcases hd with ⟨k, b⟩
    simp only [List.map_cons]
    by_cases hk : a = k
    · subst hk
      rw [if_pos rfl]
      simp [List.lookup]
    · rw [if_neg (fun hh => hk hh.symm)]
      have hbeq : (a == k) = false := beq_eq_false_iff_ne.mpr hk
      simp only [List.lookup, hbeq] at h ⊢
      exact ih h

theorem unavailableMsg_decomp (c : TestController) (alg : String) :
    ∃ post, unavailableMsg c alg = "Algorithm \x27" ++ (alg ++ post) := by
  unfold unavailableMsg
  dsimp only
  split_ifs
  · exact ⟨"\x27 not available. Available: "
      ++ pyListRepr (c.algorithms.map Prod.fst) ++ ". Install: pip install ecdsa",
      by simp [String.append_assoc]⟩
  · exact ⟨"\x27 not available. Available: "
      ++ pyListRepr (c.algorithms.map Prod.fst)
      ++ ". Install liboqs C library and liboqs-python",
      by simp [String.append_assoc]⟩
  · exact ⟨"\x27 not available. Available: "
      ++ pyListRepr (c.algorithms.map Prod.fst),
      by simp [String.append_assoc]⟩

theorem unavailableMsg_ne_empty (c : TestController) (alg : String) :
    unavailableMsg c alg ≠ "" := by
  obtain ⟨post, hp⟩ := unavailableMsg_decomp c alg
  intro h
  rw [hp] at h
  have hlen := congrArg String.length h
  rw [String.length_append, String.length_append] at hlen
  have h11 : ("Algorithm \x27" : String).length = 11 := by decide
  have h0 : ("" : String).length = 0 := by decide
  omega

theorem dispatchOp_keygen (libs : Libs) (inst : AlgoInstance) (m : ByteStr) :
    dispatchOp libs inst "keygen" m
      = ((inst.generate_keys libs).1, [Event.keygenCall],
         (inst.generate_keys libs).2) := by
  unfold dispatchOp
  rw [if_pos rfl]

theorem dispatchOp_unknown (libs : Libs) (inst : AlgoInstance) (op : String)
    (m : ByteStr) (h1 : op ≠ "keygen") (h2 : op ≠ "sign") (h3 : op ≠ "verify") :
    dispatchOp libs inst op m
      = (inst, [], some (.valueError ("Unknown operation: " ++ op))) := by
  unfold dispatchOp
  rw [if_neg h1, if_neg h2, if_neg h3]

theorem dispatchOp_sv_noKeys (libs : Libs) (inst : AlgoInstance) (op : String)
    (m : ByteStr) (hop : op = "sign" ∨ op = "verify")
    (h : inst.noPrivKey = true) :
    ∃ rest, (dispatchOp libs inst op m).2.1 = Event.keygenCall :: rest := by
  rcases hop with hop | hop
  · subst hop
    unfold dispatchOp
    rw [if_neg (by decide), if_pos rfl, h, if_pos rfl]
    rcases hg : inst.generate_keys libs with ⟨i2, exn⟩
    simp only [hg]
    cases exn with
    | some e => exact ⟨[], rfl⟩
    | none =>
      cases hs : i2.sign libs m with
      | error e => simp only [hs]; exact ⟨[Event.signCall], rfl⟩
      | ok s => simp only [hs]; exact ⟨[Event.signCall], rfl⟩
  · subst hop
    unfold dispatchOp
    rw [if_neg (by decide), if_neg (by decide), if_pos rfl, h, if_pos rfl]
    rcases hg : inst.generate_keys libs with ⟨i2, exn⟩
    simp only [hg]
    cases exn with
    | some e => exact ⟨[], rfl⟩
    | none =>
      cases hs : i2.sign libs m with
      | error e => simp only [hs]; exact ⟨[Event.signCall], rfl⟩
      | ok sg =>
        simp only [hs]
        cases hv : i2.verify libs m sg with
        | error e => simp only [hv]; exact ⟨[Event.signCall], rfl⟩
        | ok is_valid =>
          simp only [hv]
          cases is_valid
          · exact ⟨[Event.signCall, Event.verifyCall false], rfl⟩
          · exact ⟨[Event.signCall, Event.verifyCall true], rfl⟩

theorem dispatchOp_sv_hasKeys (libs : Libs) (inst : AlgoInstance) (op : String)
    (m : ByteStr) (hop : op = "sign" ∨ op = "verify")
    (h : inst.noPrivKey = false) :
    (dispatchOp libs inst op m).1 = inst
      ∧ Event.keygenCall ∉ (dispatchOp libs inst op m).2.1 := by
  rcases hop with hop | hop
  · subst hop
    unfold dispatchOp
    rw [if_neg (by decide), if_pos rfl, h]
    rw [if_neg (by decide)]
    cases hs : inst.sign libs m with
    | error e => exact ⟨rfl, by simp⟩
    | ok s => exact ⟨rfl, by simp⟩
  · subst hop
    unfold dispatchOp
    rw [if_neg (by decide), if_neg (by decide), if_pos rfl, h]
    rw [if_neg (by decide)]
    dsimp only
    cases hs : inst.sign libs m with
    | error e => exact ⟨rfl, by simp⟩
    | ok sg =>
      dsimp only
      cases hv : inst.verify libs m sg with
      | error e => exact ⟨rfl, by simp⟩
      | ok is_valid =>
        dsimp only
        cases is_valid
        · exact ⟨rfl, by simp⟩
        · exact ⟨rfl, by simp⟩

theorem dispatchOp_verifyFalse (libs : Libs) (inst : AlgoInstance) (op : String)
    (m : ByteStr) (hmem : Event.verifyCall false ∈ (dispatchOp libs inst op m).2.1) :
    (dispatchOp libs inst op m).2.2
      = some (.valueError "Signature verification failed") := by
  by_cases h1 : op = "keygen"
  · subst h1
    rw [dispatchOp_keygen] at hmem
    simp at hmem
  by_cases h2 : op = "sign"
  · subst h2
    unfold dispatchOp at hmem
    rw [if_neg (by decide), if_pos rfl] at hmem
    by_cases hk : inst.noPrivKey = true
    · rw [hk, if_pos rfl] at hmem
      rcases hg : inst.generate_keys libs with ⟨i2, exn⟩
      simp only [hg] at hmem
      cases exn with
      | some e => simp at hmem
      | none =>
        cases hs : i2.sign libs m with
        | error e => simp only [hs] at hmem; simp at hmem
        | ok s => simp only [hs] at hmem; simp at hmem
    · rw [eq_false_of_ne_true hk, if_neg (by decide)] at hmem
      cases hs : inst.sign libs m with
      | error e => simp only [hs] at hmem; simp at hmem
      | ok s => simp only [hs] at hmem; simp at hmem
  by_cases h3 : op = "verify"
  · subst h3
    unfold dispatchOp at hmem ⊢
    rw [if_neg (by decide), if_neg (by decide), if_pos rfl] at hmem ⊢
    by_cases hk : inst.noPrivKey = true
    · rw [hk, if_pos rfl] at hmem ⊢
      rcases hg : inst.generate_keys libs with ⟨i2, exn⟩
      simp only [hg] at hmem ⊢
      cases exn with
      | some e => simp at hmem
      | none =>
        cases hs : i2.sign libs m with
        | error e => simp only [hs] at hmem; simp at hmem
        | ok sg =>
          simp only [hs] at hmem ⊢
          cases hv : i2.verify libs m sg with
          | error e => simp only [hv] at hmem; simp at hmem
          | ok is_valid =>
            simp only [hv] at hmem ⊢
            cases is_valid
            · rfl
            · simp at hmem
    · rw [eq_false_of_ne_true hk, if_neg (by decide)] at hmem ⊢
      dsimp only at hmem ⊢
      cases hs : inst.sign libs m with
      | error e => simp only [hs] at hmem; simp at hmem
      | ok sg =>
        simp only [hs] at hmem ⊢
        cases hv : inst.verify libs m sg with
        | error e => simp only [hv] at hmem; simp at hmem
        | ok is_valid =>
          simp only [hv] at hmem ⊢
          cases is_valid
          · rfl
          · simp at hmem
  · rw [dispatchOp_unknown libs inst op m h1 h2 h3] at hmem
    simp at hmem

/-- C1 counterexample: `run_test` is not total.  With a registered algorithm
and `message_size = -1`, the `os.urandom(message_size)` call — which sits
before the `try` block — raises `ValueError`, and the exception propagates
to the caller instead of being converted to a failure `CryptoResult`. -/
theorem run_test_raises_on_negative_size :
    sampleController.run_test sampleEnv "ecc" "keygen" (-1)
      = .error (.valueError "negative argument not allowed") := by
  norm_num [TestController.run_test, os_urandom, sampleController, List.lookup]

/-- C1 amended: whenever the message generation step succeeds — that is, for
every `message_size ≥ 0` — `run_test` returns a `CryptoResult` for every
algorithm string, operation string and environment: every exception raised
during dispatch and library calls is caught and yields a structured failure
result, and only an exception from the pre-`try` message-generation step
(negative `message_size`) can propagate. -/
theorem run_test_total_of_nonneg_size (env : Env) (c : TestController)
    (alg op : String) (msize : Int) (h : 0 ≤ msize) :
    ∃ out, c.run_test env alg op msize = .ok out := by
  unfold TestController.run_test
  split
  · exact ⟨_, rfl⟩
  · have hu : os_urandom env msize = .ok (env.randomBytes msize) := by
      unfold os_urandom
      rw [if_neg (not_lt.mpr h)]
    rw [hu]
    dsimp only
    split
    · exact ⟨_, rfl⟩
    · exact ⟨_, rfl⟩

/-- C3: every `CryptoResult` returned by `run_test` satisfies the record
invariant: `status == failure` iff `error_message` is set and both
measurement fields are `0.0`; and `status == success` implies
`error_message` is absent. -/
theorem run_test_result_invariant (env : Env) (c : TestController)
    (alg op : String) (msize : Int) (res : CryptoResult) (c2 : TestController)
    (tr : List Event)
    (hrun : c.run_test env alg op msize = .ok (res, c2, tr)) :
    (res.status = "failure" ↔
        res.error_message.isSome ∧ res.execution_time_ms = 0
          ∧ res.memory_usage_kb = 0)
      ∧ (res.status = "success" → res.error_message = none) := by
  unfold TestController.run_test at hrun
  split at hrun
  · simp only [Except.ok.injEq, Prod.mk.injEq] at hrun
    obtain ⟨hres, -, -⟩ := hrun
    subst hres
    refine ⟨⟨fun _ => ⟨rfl, rfl, rfl⟩, fun _ => rfl⟩, fun h => ?_⟩
    have hss : ("failure" : String) = "success" := h
    exact absurd hss (by decide)
  · split at hrun
    · simp at hrun
    · dsimp only at hrun
      split at hrun
      · simp only [Except.ok.injEq, Prod.mk.injEq] at hrun
        obtain ⟨hres, -, -⟩ := hrun
        subst hres
        refine ⟨⟨fun _ => ⟨rfl, rfl, rfl⟩, fun _ => rfl⟩, fun h => ?_⟩
        have hss : ("failure" : String) = "success" := h
        exact absurd hss (by decide)
      · simp only [Except.ok.injEq, Prod.mk.injEq] at hrun
        obtain ⟨hres, -, -⟩ := hrun
        subst hres
        refine ⟨⟨fun h => ?_, fun h => absurd h.1 (by simp)⟩, fun _ => rfl⟩
        have hss : ("success" : String) = "failure" := h
        exact absurd hss (by decide)

/-- C4: for every operation and every `message_size` (negative ones
included), `run_test` on an algorithm identifier absent from the
controller's mapping returns immediately — unchanged controller, no
sampling or algorithm-call events — a `failure` result with zero
measurement fields and a non-empty error message containing the missing
algorithm's name. -/
theorem run_test_unregistered (env : Env) (c : TestController) (alg op : String)
    (msize : Int) (hlook : c.algorithms.lookup alg = none) :
    ∃ msg, c.run_test env alg op msize
        = .ok ({ timestamp := env.timestamp, algorithm := alg, operation := op,
                 message_size := msize, execution_time_ms := 0,
                 memory_usage_kb := 0, status := "failure",
                 error_message := some msg }, c, [])
      ∧ msg ≠ "" ∧ ∃ pre post, msg = pre ++ (alg ++ post) := by
  refine ⟨unavailableMsg c alg, ?_, unavailableMsg_ne_empty c alg, ?_⟩
  · unfold TestController.run_test
    rw [hlook]
  · obtain ⟨post, hp⟩ := unavailableMsg_decomp c alg
    exact ⟨"Algorithm \x27", post, hp⟩

/-- C6: for a registered algorithm, an operation identifier outside
`keygen`/`sign`/`verify`, and a message size on which message generation
succeeds, `run_test` returns (without raising) a `failure` result whose
error message names the unknown operation, with both measurement fields
`0.0` and no timing performed (no timer-stop event). -/
theorem run_test_unknown_operation (env : Env) (c : TestController)
    (alg op : String) (inst : AlgoInstance) (msize : Int)
    (hlook : c.algorithms.lookup alg = some inst)
    (h1 : op ≠ "keygen") (h2 : op ≠ "sign") (h3 : op ≠ "verify")
    (hms : 0 ≤ msize) :
    c.run_test env alg op msize
      = .ok ({ timestamp := env.timestamp, algorithm := alg, operation := op,
               message_size := msize, execution_time_ms := 0,
               memory_usage_kb := 0, status := "failure",
               error_message := some ("Unknown operation: " ++ op) },
             c.setAlgo alg inst,
             [Event.memSampleBefore, Event.timerStart]) := by
  unfold TestController.run_test
  rw [hlook]
  have hu : os_urandom env msize = .ok (env.randomBytes msize) := by
    unfold os_urandom
    rw [if_neg (not_lt.mpr hms)]
  rw [hu]
  dsimp only
  rw [dispatchOp_unknown env.libs inst op (env.randomBytes msize) h1 h2 h3]
  rfl

/-- C7: on the success path the returned `execution_time_ms` is the
timer delta converted to milliseconds and rounded to 4 decimal places, and
`memory_usage_kb` is the memory delta clamped at 0 and rounded to 3
decimal places; moreover `memory_usage_kb` is non-negative in every result
`run_test` returns, on every path. -/
theorem run_test_measurement_fields (env : Env) (c : TestController)
    (alg op : String) (msize : Int) (res : CryptoResult) (c2 : TestController)
    (tr : List Event)
    (hrun : c.run_test env alg op msize = .ok (res, c2, tr)) :
    (res.status = "success" →
        res.execution_time_ms = pyRound ((env.endTime - env.startTime) * 1000) 4
          ∧ res.memory_usage_kb
              = pyRound (max 0 (env.memAfter - env.memBefore)) 3)
      ∧ 0 ≤ res.memory_usage_kb := by
  unfold TestController.run_test at hrun
  split at hrun
  · simp only [Except.ok.injEq, Prod.mk.injEq] at hrun
    obtain ⟨hres, -, -⟩ := hrun
    subst hres
    refine ⟨fun h => ?_, le_refl 0⟩
    have hss : ("failure" : String) = "success" := h
    exact absurd hss (by decide)
  · split at hrun
    · simp at hrun
    · dsimp only at hrun
      split at hrun
      · simp only [Except.ok.injEq, Prod.mk.injEq] at hrun
        obtain ⟨hres, -, -⟩ := hrun
        subst hres
        refine ⟨fun h => ?_, le_refl 0⟩
        have hss : ("failure" : String) = "success" := h
        exact absurd hss (by decide)
      · simp only [Except.ok.injEq, Prod.mk.injEq] at hrun
        obtain ⟨hres, -, -⟩ := hrun
        subst hres
        exact ⟨fun _ => ⟨rfl, rfl⟩,
          pyRound_nonneg _ _ (le_max_left 0 _)⟩

/-- C2: in a `run_test` call on a registered algorithm with operation
`sign` or `verify`, if the instance holds no key pair at dispatch time
(the controller's `not algo.private_key` check), then `generate_keys()` is
the first algorithm call, and it occurs immediately after the timer-start
event — hence inside the timed window, before any timer-stop event; and if
a key pair exists, no `generate_keys()` call occurs and the controller
still holds the same instance (the existing key pair is reused). -/
theorem run_test_keygen_on_demand (env : Env) (c : TestController)
    (alg op : String) (inst : AlgoInstance) (msize : Int) (res : CryptoResult)
    (c2 : TestController) (tr : List Event)
    (hlook : c.algorithms.lookup alg = some inst)
    (hop : op = "sign" ∨ op = "verify")
    (hrun : c.run_test env alg op msize = .ok (res, c2, tr)) :
    (inst.noPrivKey = true →
        ∃ rest, tr = Event.memSampleBefore :: Event.timerStart ::
          Event.keygenCall :: rest)
      ∧ (inst.noPrivKey = false →
        Event.keygenCall ∉ tr ∧ c2.algorithms.lookup alg = some inst) := by
  unfold TestController.run_test at hrun
  rw [hlook] at hrun
  dsimp only at hrun
  split at hrun
  · simp at hrun
  · rename_i tm heq
    split at hrun
    · rename_i e heq2
      simp only [Except.ok.injEq, Prod.mk.injEq] at hrun
      obtain ⟨-, hc2, htr⟩ := hrun
      constructor
      · intro hk
        obtain ⟨rest, hevs⟩ := dispatchOp_sv_noKeys env.libs inst op tm hop hk
        refine ⟨rest, ?_⟩
        rw [← htr, hevs]
        rfl
      · intro hk
        obtain ⟨hinst, hnot⟩ := dispatchOp_sv_hasKeys env.libs inst op tm hop hk
        constructor
        · rw [← htr]
          simp only [List.mem_append, List.mem_cons, List.not_mem_nil]
          rintro (h | h)
          · rcases h with h | h | h
            · exact Event.noConfusion h
            · exact Event.noConfusion h
            · exact h
          · exact hnot h
        · rw [← hc2, hinst]
          exact lookup_map_set c.algorithms alg inst inst hlook
    · rename_i heq2
      simp only [Except.ok.injEq, Prod.mk.injEq] at hrun
      obtain ⟨-, hc2, htr⟩ := hrun
      constructor
      · intro hk
        obtain ⟨rest, hevs⟩ := dispatchOp_sv_noKeys env.libs inst op tm hop hk
        refine ⟨rest ++ [Event.timerStop, Event.memSampleAfter], ?_⟩
        rw [← htr, hevs]
        simp
      · intro hk
        obtain ⟨hinst, hnot⟩ := dispatchOp_sv_hasKeys env.libs inst op tm hop hk
        constructor
        · rw [← htr]
          simp only [List.mem_append, List.mem_cons, List.not_mem_nil]
          rintro ((h | h) | h)
          · rcases h with h | h | h
            · exact Event.noConfusion h
            · exact Event.noConfusion h
            · exact h
          · exact hnot h
          · rcases h with h | h | h
            · exact Event.noConfusion h
            · exact Event.noConfusion h
            · exact h
        · rw [← hc2, hinst]
          exact lookup_map_set c.algorithms alg inst inst hlook

/-- C5: whenever a `run_test` dispatch performs a `verify` call on the
freshly produced signature and that call returns `False`, the returned
result reports `failure` with the message `Signature verification failed`
and zeroed measurement fields — never `success`. -/
theorem run_test_verify_mismatch (env : Env) (c : TestController)
    (alg op : String) (msize : Int) (res : CryptoResult) (c2 : TestController)
    (tr : List Event)
    (hrun : c.run_test env alg op msize = .ok (res, c2, tr))
    (hmem : Event.verifyCall false ∈ tr) :
    res.status = "failure"
      ∧ res.error_message = some "Signature verification failed"
      ∧ res.execution_time_ms = 0 ∧ res.memory_usage_kb = 0 := by
  unfold TestController.run_test at hrun
  split at hrun
  · simp only [Except.ok.injEq, Prod.mk.injEq] at hrun
    obtain ⟨-, -, htr⟩ := hrun
    rw [← htr] at hmem
    simp at hmem
  · rename_i algo heq0
    split at hrun
    · simp at hrun
    · rename_i tm heq1
      dsimp only at hrun
      split at hrun
      · rename_i e heq2
        simp only [Except.ok.injEq, Prod.mk.injEq] at hrun
        obtain ⟨hres, -, htr⟩ := hrun
        rw [← htr] at hmem
        have hd : Event.verifyCall false ∈ (dispatchOp env.libs algo op tm).2.1 := by
          simp only [List.mem_append, List.mem_cons, List.not_mem_nil] at hmem
          rcases hmem with (h | h | h) | h
          · exact absurd h (by simp)
          · exact absurd h (by simp)
          · exact h.elim
          · exact h
        have hv := dispatchOp_verifyFalse env.libs algo op tm hd
        rw [heq2] at hv
        rw [Option.some.injEq] at hv
        subst hv
        subst hres
        exact ⟨rfl, rfl, rfl, rfl⟩
      · rename_i heq2
        simp only [Except.ok.injEq, Prod.mk.injEq] at hrun
        obtain ⟨-, -, htr⟩ := hrun
        rw [← htr] at hmem
        have hd : Event.verifyCall false ∈ (dispatchOp env.libs algo op tm).2.1 := by
          simp only [List.mem_append, List.mem_cons, List.not_mem_nil] at hmem
          rcases hmem with ((h | h | h) | h) | h | h | h
          · exact absurd h (by simp)
          · exact absurd h (by simp)
          · exact h.elim
          · exact h
          · exact absurd h (by simp)
          · exact absurd h (by simp)
          · exact h.elim
        have hv := dispatchOp_verifyFalse env.libs algo op tm hd
        rw [heq2] at hv
        exact Option.noConfusion hv

/-- C10: on every return path of `run_test` (unregistered algorithm, success,
and caught-exception failure), the returned `CryptoResult` carries exactly
the `algorithm`, `operation` and `message_size` arguments of the call. -/
theorem run_test_echoes_arguments (env : Env) (c : TestController)
    (alg op : String) (msize : Int) (res : CryptoResult) (c2 : TestController)
    (tr : List Event)
    (hrun : c.run_test env alg op msize = .ok (res, c2, tr)) :
    res.algorithm = alg ∧ res.operation = op ∧ res.message_size = msize := by
  unfold TestController.run_test at hrun
  split at hrun
  · simp only [Except.ok.injEq, Prod.mk.injEq] at hrun
    obtain ⟨hres, -, -⟩ := hrun
    subst hres
    exact ⟨rfl, rfl, rfl⟩
  · split at hrun
    · simp at hrun
    · dsimp only at hrun
      split at hrun
      · simp only [Except.ok.injEq, Prod.mk.injEq] at hrun
        obtain ⟨hres, -, -⟩ := hrun
        subst hres
        exact ⟨rfl, rfl, rfl⟩
      · simp only [Except.ok.injEq, Prod.mk.injEq] at hrun
        obtain ⟨hres, -, -⟩ := hrun
        subst hres
        exact ⟨rfl, rfl, rfl⟩

/-- C8: a bare algorithm instance holding no key pair raises the
`InvalidState`-equivalent `ValueError` (a catchable exception, not a
return value) from both `sign` and `verify`, for both the classical and
the post-quantum implementation, whatever the library behaviour. -/
theorem bare_sign_verify_invalid_state (eLib : ECCLib) (dLib : DilithiumLib)
    (ie : ECCImplementation) (di : DILITHIUMImplementation) (m s : ByteStr)
    (h1 : ie.private_key = none) (h2 : ie.public_key = none)
    (h3 : di.private_key = none) (h4 : di.public_key = none) :
    ECCImplementation.sign eLib ie m
        = .error (.valueError keysNotGeneratedMsg)
      ∧ ECCImplementation.verify eLib ie m s
        = .error (.valueError keysNotGeneratedMsg)
      ∧ DILITHIUMImplementation.sign dLib di m
        = .error (.valueError keysNotGeneratedMsg)
      ∧ DILITHIUMImplementation.verify dLib di m s
        = .error (.valueError keysNotGeneratedMsg) := by
  unfold ECCImplementation.sign ECCImplementation.verify
    DILITHIUMImplementation.sign DILITHIUMImplementation.verify
  rw [h1, h2, h3, h4]
  exact ⟨rfl, rfl, rfl, rfl⟩

/-- C9: on an instance holding a key pair, `verify` returns a boolean for
every message and signature and never propagates an exception; any
exception raised by the underlying library's verification call is caught
and turned into `false`, for both implementations. -/
theorem verify_total_and_rejects_on_exception (eLib : ECCLib)
    (dLib : DilithiumLib) (ie : ECCImplementation)
    (di : DILITHIUMImplementation) (m s pk pkd : ByteStr)
    (he : ie.public_key = some pk) (hd : di.public_key = some pkd)
    (hne : pkd ≠ []) :
    (∃ b, ECCImplementation.verify eLib ie m s = .ok b)
      ∧ (∀ e, eLib.verifyRaw pk s m = .error e →
          ECCImplementation.verify eLib ie m s = .ok false)
      ∧ (∃ b, DILITHIUMImplementation.verify dLib di m s = .ok b)
      ∧ (∀ e, dLib.verifyRaw m s pkd = .error e →
          DILITHIUMImplementation.verify dLib di m s = .ok false) := by
  have hempty : pkd.isEmpty = false := by
    cases pkd with
    | nil => exact absurd rfl hne
    | cons a l => rfl
  refine ⟨?_, ?_, ?_, ?_⟩
  · unfold ECCImplementation.verify
    rw [he]
    dsimp only
    cases hv : eLib.verifyRaw pk s m with
    | error e => exact ⟨false, rfl⟩
    | ok b => exact ⟨true, rfl⟩
  · intro e hv
    unfold ECCImplementation.verify
    rw [he]
    dsimp only
    rw [hv]
  · unfold DILITHIUMImplementation.verify
    rw [hd]
    dsimp only
    rw [hempty, if_neg (by decide)]
    cases hv : dLib.verifyRaw m s pkd with
    | error e => exact ⟨false, rfl⟩
    | ok b => exact ⟨b, rfl⟩
  · intro e hv
    unfold DILITHIUMImplementation.verify
    rw [hd]
    dsimp only
    rw [hempty, if_neg (by decide), hv]

/-- C1 amended, witnessed at a concrete registered call. -/
theorem run_test_total_witness :
    (0 : Int) ≤ 5
      ∧ ∃ out, sampleController.run_test sampleEnv "ecc" "keygen" 5
          = .ok out :=
  ⟨by norm_num,
   run_test_total_of_nonneg_size sampleEnv sampleController "ecc" "keygen" 5
     (by norm_num)⟩

/-- C2 witnessed on a concrete fresh-instance `sign` run. -/
theorem run_test_keygen_on_demand_witness :
    ((AlgoInstance.ecc freshECC).noPrivKey = true →
      ∃ rest, signRunTr = Event.memSampleBefore :: Event.timerStart ::
        Event.keygenCall :: rest)
    ∧ ((AlgoInstance.ecc freshECC).noPrivKey = false →
      Event.keygenCall ∉ signRunTr
        ∧ keygenRunCtl.algorithms.lookup "ecc" = some (.ecc freshECC)) :=
  run_test_keygen_on_demand sampleEnv sampleController "ecc" "sign"
    (.ecc freshECC) 5
    signRunRes keygenRunCtl signRunTr (by decide) (Or.inl rfl)
    (by norm_num [TestController.run_test, dispatchOp,
      AlgoInstance.generate_keys, AlgoInstance.noPrivKey, AlgoInstance.sign,
      ECCImplementation.generate_keys, ECCImplementation.sign,
      sampleController, sampleEnv, sampleECCLib, os_urandom,
      TestController.setAlgo, pyRound, roundHalfEven, List.lookup,
      signRunRes, keygenRunCtl, signRunTr, freshECC,
      (by decide : ("sign" : String) ≠ "keygen")])

/-- C3 witnessed on a concrete successful key-generation run. -/
theorem run_test_result_invariant_witness :
    (keygenRunRes.status = "failure" ↔
        keygenRunRes.error_message.isSome
          ∧ keygenRunRes.execution_time_ms = 0
          ∧ keygenRunRes.memory_usage_kb = 0)
      ∧ (keygenRunRes.status = "success" →
          keygenRunRes.error_message = none) :=
  run_test_result_invariant sampleEnv sampleController "ecc" "keygen" 5
    keygenRunRes keygenRunCtl keygenRunTr
    (by norm_num [TestController.run_test, dispatchOp,
      AlgoInstance.generate_keys, ECCImplementation.generate_keys,
      sampleController, sampleEnv, sampleECCLib, os_urandom,
      TestController.setAlgo, pyRound, roundHalfEven, List.lookup,
      keygenRunRes, keygenRunCtl, keygenRunTr])

/-- C4 witnessed on a concrete unregistered-algorithm call. -/
theorem run_test_unregistered_witness :
    ∃ msg, sampleController.run_test sampleEnv "unknown" "keygen" 5
        = .ok ({ timestamp := sampleEnv.timestamp, algorithm := "unknown",
                 operation := "keygen", message_size := 5,
                 execution_time_ms := 0, memory_usage_kb := 0,
                 status := "failure", error_message := some msg },
               sampleController, [])
      ∧ msg ≠ "" ∧ ∃ pre post, msg = pre ++ ("unknown" ++ post) :=
  run_test_unregistered sampleEnv sampleController "unknown" "keygen" 5
    (by decide)

/-- C5 witnessed on a concrete run whose library rejects the fresh
signature. -/
theorem run_test_verify_mismatch_witness :
    mismatchRunRes.status = "failure"
      ∧ mismatchRunRes.error_message = some "Signature verification failed"
      ∧ mismatchRunRes.execution_time_ms = 0
      ∧ mismatchRunRes.memory_usage_kb = 0 :=
  run_test_verify_mismatch badVerifyEnv sampleController "ecc" "verify" 5
    mismatchRunRes keygenRunCtl mismatchRunTr
    (by norm_num [TestController.run_test, dispatchOp,
      AlgoInstance.generate_keys, AlgoInstance.noPrivKey, AlgoInstance.sign,
      AlgoInstance.verify, ECCImplementation.generate_keys,
      ECCImplementation.sign, ECCImplementation.verify,
      sampleController, sampleEnv, badVerifyEnv, badVerifyECCLib,
      sampleDilLib, os_urandom, TestController.setAlgo, List.lookup,
      mismatchRunRes, keygenRunCtl, mismatchRunTr, PyExn.str,
      (by decide : ("verify" : String) ≠ "keygen"),
      (by decide : ("verify" : String) ≠ "sign")])
    (by decide)

/-- C6 witnessed on a concrete bogus-operation call. -/
theorem run_test_unknown_operation_witness :
    sampleController.run_test sampleEnv "ecc" "bogus_op" 256
      = .ok ({ timestamp := sampleEnv.timestamp, algorithm := "ecc",
               operation := "bogus_op", message_size := 256,
               execution_time_ms := 0, memory_usage_kb := 0,
               status := "failure",
               error_message := some ("Unknown operation: " ++ "bogus_op") },
             sampleController.setAlgo "ecc"
               (.ecc { private_key := none, public_key := none }),
             [Event.memSampleBefore, Event.timerStart]) :=
  run_test_unknown_operation sampleEnv sampleController "ecc" "bogus_op"
    (.ecc { private_key := none, public_key := none }) 256
    (by decide) (by decide) (by decide) (by decide) (by norm_num)

/-- C7 witnessed on a concrete successful key-generation run. -/
theorem run_test_measurement_fields_witness :
    (keygenRunRes.status = "success" →
        keygenRunRes.execution_time_ms
            = pyRound ((sampleEnv.endTime - sampleEnv.startTime) * 1000) 4
          ∧ keygenRunRes.memory_usage_kb
            = pyRound (max 0 (sampleEnv.memAfter - sampleEnv.memBefore)) 3)
      ∧ 0 ≤ keygenRunRes.memory_usage_kb :=
  run_test_measurement_fields sampleEnv sampleController "ecc" "keygen" 5
    keygenRunRes keygenRunCtl keygenRunTr
    (by norm_num [TestController.run_test, dispatchOp,
      AlgoInstance.generate_keys, ECCImplementation.generate_keys,
      sampleController, sampleEnv, sampleECCLib, os_urandom,
      TestController.setAlgo, pyRound, roundHalfEven, List.lookup,
      keygenRunRes, keygenRunCtl, keygenRunTr])

/-- C8 witnessed on concrete fresh instances. -/
theorem bare_sign_verify_invalid_state_witness :
    ECCImplementation.sign sampleECCLib
        { private_key := none, public_key := none } [7]
        = .error (.valueError keysNotGeneratedMsg)
      ∧ ECCImplementation.verify sampleECCLib
        { private_key := none, public_key := none } [7] [8]
        = .error (.valueError keysNotGeneratedMsg)
      ∧ DILITHIUMImplementation.sign sampleDilLib
        { private_key := none, public_key := none } [7]
        = .error (.valueError keysNotGeneratedMsg)
      ∧ DILITHIUMImplementation.verify sampleDilLib
        { private_key := none, public_key := none } [7] [8]
        = .error (.valueError keysNotGeneratedMsg) :=
  bare_sign_verify_invalid_state sampleECCLib sampleDilLib
    { private_key := none, public_key := none }
    { private_key := none, public_key := none } [7] [8] rfl rfl rfl rfl

/-- C9 witnessed on concrete instances holding key pairs. -/
theorem verify_total_witness :
    (∃ b, ECCImplementation.verify sampleECCLib
        { private_key := some [1], public_key := some [2] } [7] [8] = .ok b)
      ∧ (∀ e, sampleECCLib.verifyRaw [2] [8] [7] = .error e →
          ECCImplementation.verify sampleECCLib
            { private_key := some [1], public_key := some [2] } [7] [8]
            = .ok false)
      ∧ (∃ b, DILITHIUMImplementation.verify sampleDilLib
        { private_key := some [5], public_key := some [4] } [7] [8] = .ok b)
      ∧ (∀ e, sampleDilLib.verifyRaw [7] [8] [4] = .error e →
          DILITHIUMImplementation.verify sampleDilLib
            { private_key := some [5], public_key := some [4] } [7] [8]
            = .ok false) :=
  verify_total_and_rejects_on_exception sampleECCLib sampleDilLib
    { private_key := some [1], public_key := some [2] }
    { private_key := some [5], public_key := some [4] } [7] [8] [2] [4]
    rfl rfl (by decide)

/-- C10 witnessed on a concrete successful key-generation run. -/
theorem run_test_echoes_arguments_witness :
    keygenRunRes.algorithm = "ecc" ∧ keygenRunRes.operation = "keygen"
      ∧ keygenRunRes.message_size = 5 :=
  run_test_echoes_arguments sampleEnv sampleController "ecc" "keygen" 5
    keygenRunRes keygenRunCtl keygenRunTr
    (by norm_num [TestController.run_test, dispatchOp,
      AlgoInstance.generate_keys, ECCImplementation.generate_keys,
      sampleController, sampleEnv, sampleECCLib, os_urandom,
      TestController.setAlgo, pyRound, roundHalfEven, List.lookup,
      keygenRunRes, keygenRunCtl, keygenRunTr])

end CryptoBench
